import Mathlib

/-!
Verification development for the One Sentence OCR tool
(`one_sentence_ocr.py`).  The definitions below are a shallow embedding of
the selection-rectangle engine (`SelectionWindow`), the OCR language
negotiation (`OCRWorker.perform_ocr`), and the text-normalization pipeline
(`OCRWorker.clean_ocr_text`, `OCRWindow._normalize_brackets`,
`OCRWindow.display_result`).  Machine integers of the source are modelled
as `Int` (PyQt coordinates are plain Python ints; no wraparound occurs in
any of the modelled operations), and Python strings as `List Char`.
-/

namespace OneOcr

/-- A pointer position, as delivered by `event.pos()`. -/
structure Pt where
  x : Int
  y : Int
deriving DecidableEq, Repr

/--
The selection rectangle.  `QRect` stores `x1, y1, x2, y2`; constructing
`QRect(x, y, w, h)` sets `x2 = x + w - 1` and `y2 = y + h - 1`.  We store
`x, y, w, h` (so `width() = w`, `height() = h`) and translate the accessor
and setter semantics of `QRect` accordingly.
-/
structure Rect where
  x : Int
  y : Int
  w : Int
  h : Int
deriving DecidableEq, Repr

/-- `QRect.left()`. -/
def Rect.leftEdge (r : Rect) : Int := r.x

/-- `QRect.top()`. -/
def Rect.topEdge (r : Rect) : Int := r.y

/-- `QRect.right()` is `x2 = x + w - 1`. -/
def Rect.rightEdge (r : Rect) : Int := r.x + r.w - 1

/-- `QRect.bottom()` is `y2 = y + h - 1`. -/
def Rect.bottomEdge (r : Rect) : Int := r.y + r.h - 1

/-- `QRect.setLeft(l)`: moves `x1` only, keeping `x2`; so the width
becomes `x2 - l + 1 = x + w - l`. -/
def Rect.setLeft (r : Rect) (l : Int) : Rect := ⟨l, r.y, r.x + r.w - l, r.h⟩

/-- `QRect.setRight(ri)`: moves `x2` only; the width becomes `ri - x + 1`. -/
def Rect.setRight (r : Rect) (ri : Int) : Rect := ⟨r.x, r.y, ri - r.x + 1, r.h⟩

/-- `QRect.setTop(t)`: moves `y1` only; the height becomes `y + h - t`. -/
def Rect.setTop (r : Rect) (t : Int) : Rect := ⟨r.x, t, r.w, r.y + r.h - t⟩

/-- `QRect.setBottom(b)`: moves `y2` only; the height becomes `b - y + 1`. -/
def Rect.setBottom (r : Rect) (b : Int) : Rect := ⟨r.x, r.y, r.w, b - r.y + 1⟩

/-- `QRect.translate(delta)`: shifts both corners; width and height are
untouched. -/
def Rect.translate (r : Rect) (dx dy : Int) : Rect := ⟨r.x + dx, r.y + dy, r.w, r.h⟩

/-- The eight resize handles of `SelectionWindow`
(`'tl', 'tr', 'bl', 'br', 'top', 'bottom', 'left', 'right'`). -/
inductive Edge where
  | tl | tr | bl | br | top | bottom | left | right
deriving DecidableEq, Repr

/-- Python `abs` on ints. -/
def pyAbs (i : Int) : Int := if i < 0 then -i else i

/-- The pixel tolerance of `SelectionWindow.get_edge_at_point`. -/
def tolerance : Int := 12

/--
`SelectionWindow.get_edge_at_point`, verbatim: the four corner tests run
first, then the four edge tests, each an early `return`; `none` models
the final `return None`.  The local names of the source (`px`, `py`,
`left`, `right`, `top`, `bottom`) are inlined as `pos.x`, `pos.y` and the
edge accessors.
-/
def get_edge_at_point (r : Rect) (pos : Pt) : Option Edge :=
  if pos.x - r.leftEdge < tolerance ∧ pos.y - r.topEdge < tolerance ∧
      r.leftEdge ≤ pos.x ∧ r.topEdge ≤ pos.y then
    some .tl
  else if r.rightEdge - pos.x < tolerance ∧ pos.y - r.topEdge < tolerance ∧
      pos.x ≤ r.rightEdge ∧ r.topEdge ≤ pos.y then
    some .tr
  else if pos.x - r.leftEdge < tolerance ∧ r.bottomEdge - pos.y < tolerance ∧
      r.leftEdge ≤ pos.x ∧ pos.y ≤ r.bottomEdge then
    some .bl
  else if r.rightEdge - pos.x < tolerance ∧ r.bottomEdge - pos.y < tolerance ∧
      pos.x ≤ r.rightEdge ∧ pos.y ≤ r.bottomEdge then
    some .br
  else if pyAbs (pos.y - r.topEdge) < tolerance ∧ r.leftEdge ≤ pos.x ∧ pos.x ≤ r.rightEdge then
    some .top
  else if pyAbs (pos.y - r.bottomEdge) < tolerance ∧ r.leftEdge ≤ pos.x ∧ pos.x ≤ r.rightEdge then
    some .bottom
  else if pyAbs (pos.x - r.leftEdge) < tolerance ∧ r.topEdge ≤ pos.y ∧ pos.y ≤ r.bottomEdge then
    some .left
  else if pyAbs (pos.x - r.rightEdge) < tolerance ∧ r.topEdge ≤ pos.y ∧ pos.y ≤ r.bottomEdge then
    some .right
  else
    none

/-- The disjunction of the four corner tests of `get_edge_at_point`. -/
def cornerZone (r : Rect) (pos : Pt) : Prop :=
  (pos.x - r.leftEdge < tolerance ∧ pos.y - r.topEdge < tolerance ∧
    r.leftEdge ≤ pos.x ∧ r.topEdge ≤ pos.y) ∨
  (r.rightEdge - pos.x < tolerance ∧ pos.y - r.topEdge < tolerance ∧
    pos.x ≤ r.rightEdge ∧ r.topEdge ≤ pos.y) ∨
  (pos.x - r.leftEdge < tolerance ∧ r.bottomEdge - pos.y < tolerance ∧
    r.leftEdge ≤ pos.x ∧ pos.y ≤ r.bottomEdge) ∨
  (r.rightEdge - pos.x < tolerance ∧ r.bottomEdge - pos.y < tolerance ∧
    pos.x ≤ r.rightEdge ∧ pos.y ≤ r.bottomEdge)

/-- The disjunction of the four edge tests of `get_edge_at_point`. -/
def edgeZone (r : Rect) (pos : Pt) : Prop :=
  (pyAbs (pos.y - r.topEdge) < tolerance ∧ r.leftEdge ≤ pos.x ∧ pos.x ≤ r.rightEdge) ∨
  (pyAbs (pos.y - r.bottomEdge) < tolerance ∧ r.leftEdge ≤ pos.x ∧ pos.x ≤ r.rightEdge) ∨
  (pyAbs (pos.x - r.leftEdge) < tolerance ∧ r.topEdge ≤ pos.y ∧ pos.y ≤ r.bottomEdge) ∨
  (pyAbs (pos.x - r.rightEdge) < tolerance ∧ r.topEdge ≤ pos.y ∧ pos.y ≤ r.bottomEdge)

/-- The classification is one of the four corner handles. -/
def isCornerResult (e : Option Edge) : Prop :=
  e = some .tl ∨ e = some .tr ∨ e = some .bl ∨ e = some .br

/--
The rectangle `SelectionWindow.resize_selection` proposes before its
minimum-size check: the horizontal bound implied by `edge` (if any) is
moved to `pos.x`, the vertical bound (if any) to `pos.y`.
-/
def propose_resize (edge : Edge) (pos : Pt) (r : Rect) : Rect :=
  let r1 :=
    match edge with
    | .tl | .bl | .left => r.setLeft pos.x
    | .tr | .br | .right => r.setRight pos.x
    | .top | .bottom => r
  match edge with
  | .tl | .tr | .top => r1.setTop pos.y
  | .bl | .br | .bottom => r1.setBottom pos.y
  | .left | .right => r1

/--
`SelectionWindow.resize_selection`: the proposed rectangle replaces the
selection only when `new_rect.width() >= 20 and new_rect.height() >= 20`;
otherwise `self.selection_rect` is left untouched.
-/
def resize_selection (edge : Edge) (pos : Pt) (r : Rect) : Rect :=
  let nr := propose_resize edge pos r
  if 20 ≤ nr.w ∧ 20 ≤ nr.h then nr else r

/--
The saved-rectangle clamping of `SelectionWindow.__init__`:
`x = max(0, min(x, screen_width - 20))`, `y = max(0, min(y, screen_height - 20))`,
`width = max(20, min(width, screen_width - x))`,
`height = max(20, min(height, screen_height - y))`.
-/
def initial_clamp (screenW screenH : Int) (r : Rect) : Rect :=
  let x := max 0 (min r.x (screenW - 20))
  let y := max 0 (min r.y (screenH - 20))
  let w := max 20 (min r.w (screenW - x))
  let h := max 20 (min r.h (screenH - y))
  ⟨x, y, w, h⟩

/-- The mouse-interaction fields of `SelectionWindow` that
`mouseMoveEvent` reads and writes. -/
structure SelState where
  rect : Rect
  dragging : Bool
  resizing : Bool
  resizeEdge : Option Edge
  dragStart : Pt
deriving Repr

/--
`SelectionWindow.mouseMoveEvent`: in the dragging branch the rectangle is
translated by `event.pos() - self.drag_start` and `drag_start` is reset to
the event position; in the resizing branch (`self.resizing and
self.resize_edge`) the rectangle is resized; otherwise only the cursor
shape changes, which this model omits because it never mutates the
rectangle or the interaction state.
-/
def mouseMoveEvent (s : SelState) (pos : Pt) : SelState :=
  if s.dragging then
    { s with
      rect := s.rect.translate (pos.x - s.dragStart.x) (pos.y - s.dragStart.y)
      dragStart := pos }
  else
    match s.resizing, s.resizeEdge with
    | true, some e => { s with rect := resize_selection e pos s.rect }
    | _, _ => s

/-- The engine-driven rectangle mutations named by the spec: clamping a
saved rectangle at session start, a drag translation step, a resize step. -/
inductive Mutation where
  | initClamp (screenW screenH : Int)
  | drag (dx dy : Int)
  | resize (edge : Edge) (pos : Pt)
deriving Repr

/-- Apply one engine-driven mutation to the selection rectangle. -/
def applyMutation (r : Rect) : Mutation → Rect
  | .initClamp sw sh => initial_clamp sw sh r
  | .drag dx dy => r.translate dx dy
  | .resize e p => resize_selection e p r

/-- Apply a sequence of engine-driven mutations. -/
def runMutations (r : Rect) (ms : List Mutation) : Rect :=
  ms.foldl applyMutation r

/-- The minimum-size invariant of the selection rectangle. -/
def sizeInv (r : Rect) : Prop := 20 ≤ r.w ∧ 20 ≤ r.h

/-!
OCR language negotiation (`OCRWorker`).
-/

/-- `OCRWorker.LANGUAGE_MAP`, verbatim. -/
def LANGUAGE_MAP : List (String × String) :=
  [("chi_sim+eng", "zh-Hans"),
   ("chi_tra+eng", "zh-Hant"),
   ("chi_sim+chi_tra+eng", "zh-Hans"),
   ("chi_sim+chi_tra+jpn+eng", "zh-Hans"),
   ("jpn+eng", "ja"),
   ("eng", "en"),
   ("kor+eng", "ko")]

/-- `OCRWorker._get_windows_language`:
`self.LANGUAGE_MAP.get(self.ocr_language, 'zh-Hans')`. -/
def get_windows_language (ocrLanguage : String) : String :=
  (LANGUAGE_MAP.lookup ocrLanguage).getD "zh-Hans"

/-- The fallback extension of `languages_to_try` built in
`OCRWorker.perform_ocr` from the primary Windows tag. -/
def fallback_languages (winLang : String) : List String :=
  if winLang = "zh-Hans" then ["zh-Hant", "zh-CN", "zh-TW", "ja", "en"]
  else if winLang = "zh-Hant" then ["zh-Hans", "zh-TW", "zh-CN", "ja", "en"]
  else if winLang = "ja" then ["zh-Hans", "zh-Hant", "en"]
  else ["en", "zh-Hans", "zh-Hant"]

/-- `languages_to_try`: the primary tag followed by its fallbacks. -/
def languages_to_try (ocrLanguage : String) : List String :=
  let winLang := get_windows_language ocrLanguage
  winLang :: fallback_languages winLang

/--
`available_lang`: the first candidate for which
`OcrEngine.is_language_supported(Language(lang))` returns true.  A raised
exception is swallowed by the bare `except: continue`, so the host engine
is modelled as a total boolean predicate on tags.
-/
def available_lang (ocrLanguage : String) (supported : String → Bool) : Option String :=
  (languages_to_try ocrLanguage).find? supported

/-- First remediation command of the no-language-pack error message. -/
def remediation_tw : String :=
  "Add-WindowsCapability -Online -Name \"Language.OCR~~~zh-TW~0.0.1.0\""

/-- Second remediation command of the no-language-pack error message. -/
def remediation_cn : String :=
  "Add-WindowsCapability -Online -Name \"Language.OCR~~~zh-CN~0.0.1.0\""

/-- The error text emitted by `perform_ocr` when no candidate language is
supported, verbatim (Python concatenates the adjacent string literals). -/
def no_language_pack_message : String :=
  "Error: No OCR language pack installed.\n\n" ++
  "Please install a language pack by running PowerShell as Administrator:\n" ++
  remediation_tw ++ "\nor\n" ++ remediation_cn

/-- Outcome of the language-selection stage of `perform_ocr`: either the
no-language-pack error message is emitted and the function returns, or
recognition proceeds with the selected tag. -/
inductive LangOutcome where
  | noLanguagePack (msg : String)
  | recognizeWith (lang : String)
deriving DecidableEq, Repr

/-- The language-selection stage of `OCRWorker.perform_ocr` (the
`if not available_lang` branch versus running `winocr.recognize_pil` with
`lang=available_lang`). -/
def language_stage (ocrLanguage : String) (supported : String → Bool) : LangOutcome :=
  match available_lang ocrLanguage supported with
  | some lang => .recognizeWith lang
  | none => .noLanguagePack no_language_pack_message

/-!
Text normalization (`OCRWorker.clean_ocr_text`).  Python strings are
modelled as `List Char`.  Each `re.sub` pass of the source is modelled as
a left-to-right scanner with the exact semantics of `re.sub`: the leftmost
match is replaced and scanning resumes right after the consumed text;
lookarounds consult the original characters and consume nothing.  The
scanners take a fuel argument (the list length plus one always suffices,
as every step consumes at least one character); fuel keeps the
definitions structurally recursive and hence kernel-computable.
-/

/-- Characters removed by the first pass of `clean_ocr_text`
(the class `[\x00-\x08\x0b\x0c\x0e-\x1f\x7f]`). -/
def isPyControl (c : Char) : Bool :=
  decide (c.toNat ≤ 8 ∨ c.toNat = 11 ∨ c.toNat = 12 ∨
    (14 ≤ c.toNat ∧ c.toNat ≤ 31) ∨ c.toNat = 127)

/-- Python whitespace: the characters matched by the regex class
`\s` on `str` patterns and stripped by `str.strip()` (ASCII whitespace,
the C0 separators, NEL, NBSP and the Unicode space characters). -/
def isPySpace (c : Char) : Bool :=
  decide (c.toNat ∈ ([9, 10, 11, 12, 13, 28, 29, 30, 31, 32, 133, 160,
      0x1680, 0x2028, 0x2029, 0x202f, 0x205f, 0x3000] : List Nat) ∨
    (0x2000 ≤ c.toNat ∧ c.toNat ≤ 0x200a))

/-- ASCII `[a-z]`. -/
def isLowerAscii (c : Char) : Bool := decide (97 ≤ c.toNat ∧ c.toNat ≤ 122)

/-- ASCII `[A-Za-z0-9]`. -/
def isAsciiAlnum (c : Char) : Bool :=
  decide ((48 ≤ c.toNat ∧ c.toNat ≤ 57) ∨ (65 ≤ c.toNat ∧ c.toNat ≤ 90) ∨
    (97 ≤ c.toNat ∧ c.toNat ≤ 122))

/-- Hiragana block `[぀-ゟ]`. -/
def isHira (c : Char) : Bool := decide (0x3040 ≤ c.toNat ∧ c.toNat ≤ 0x309f)

/-- Katakana block `[゠-ヿ]`. -/
def isKata (c : Char) : Bool := decide (0x30a0 ≤ c.toNat ∧ c.toNat ≤ 0x30ff)

/-- CJK unified ideographs `[一-鿿]`. -/
def isKanji (c : Char) : Bool := decide (0x4e00 ≤ c.toNat ∧ c.toNat ≤ 0x9fff)

/-- The combined kana block `[぀-ヿ]`. -/
def isKana (c : Char) : Bool := decide (0x3040 ≤ c.toNat ∧ c.toNat ≤ 0x30ff)

/-- The combined class `[぀-ヿ一-鿿]`. -/
def isCJ (c : Char) : Bool := isKana c || isKanji c

/-- The Japanese punctuation class `[。、！？「」『』（）・：；]`. -/
def isJpnPunct (c : Char) : Bool :=
  (['。', '、', '！', '？', '「', '」', '『', '』', '（', '）', '・', '：', '；'] : List Char).contains c

/-- The decorative-symbol class `[☆★♪•·]`. -/
def isDecor (c : Char) : Bool := (['☆', '★', '♪', '•', '·'] : List Char).contains c

/-- Unicode Roman numerals `[Ⅰ-ↈ]`. -/
def isUniRoman (c : Char) : Bool := decide (0x2160 ≤ c.toNat ∧ c.toNat ≤ 0x2188)

/-- ASCII Roman-numeral letters `[IVXLCDMivxlcdm]`. -/
def isAsciiRoman (c : Char) : Bool :=
  (['I', 'V', 'X', 'L', 'C', 'D', 'M', 'i', 'v', 'x', 'l', 'c', 'd', 'm'] : List Char).contains c

/-- The lookaround class of the Roman-numeral pass,
`[A-Za-z0-9一-鿿぀-ヿ]`. -/
def isWContext (c : Char) : Bool := isAsciiAlnum c || isKanji c || isKana c

/--
Python regex word characters (for the word boundary assertions of the
Roman-numeral pass), restricted to the codepoint ranges that this
program's character classes can put next to a Roman-numeral run: ASCII,
the kana blocks (whose non-word members are the unassigned U+3040, the
marks U+3099-U+309C, the dash U+30A0 and the middle dot U+30FB), the CJK
ideographs and the Unicode Roman numerals.
-/
def pyWordChar (c : Char) : Bool :=
  isAsciiAlnum c || c == '_' || isKanji c || isUniRoman c ||
  decide ((0x3041 ≤ c.toNat ∧ c.toNat ≤ 0x3096) ∨ (0x309d ≤ c.toNat ∧ c.toNat ≤ 0x309f) ∨
    (0x30a1 ≤ c.toNat ∧ c.toNat ≤ 0x30fa) ∨ (0x30fc ≤ c.toNat ∧ c.toNat ≤ 0x30ff))

/-- Head-of-list predicate test. -/
def headSat (p : Char → Bool) (l : List Char) : Bool :=
  match l with
  | c :: _ => p c
  | [] => false

/-- Pass 1: `re.sub(r'[\x00-\x08\x0b\x0c\x0e-\x1f\x7f]', '', text)` — a
single-character class replaced by the empty string is a filter. -/
def removeControls (l : List Char) : List Char := l.filter (fun c => !isPyControl c)

/--
`re.sub(r'(?<=[a-z])I(?=[a-z])', 'l', text)`.  Every match has width one
and both lookarounds consult the original neighbours, so the pass is a
pointwise rewrite with original context; `prev` carries the original
previous character.
-/
def fixIa (prev : Option Char) : List Char → List Char
  | [] => []
  | c :: cs =>
    (if (prev.elim false isLowerAscii) && c == 'I' && headSat isLowerAscii cs then 'l' else c) ::
      fixIa (some c) cs

/-- The lookahead `(?=\s|$|[.,!?;:\)])` of the second I-repair pass. -/
def aheadIb (l : List Char) : Bool :=
  match l with
  | [] => true
  | c :: _ => isPySpace c || (['.', ',', '!', '?', ';', ':', ')'] : List Char).contains c

/-- `re.sub(r'(?<=[a-z])I(?=\s|$|[.,!?;:\)])', 'l', text)`. -/
def fixIb (prev : Option Char) : List Char → List Char
  | [] => []
  | c :: cs =>
    (if (prev.elim false isLowerAscii) && c == 'I' && aheadIb cs then 'l' else c) ::
      fixIb (some c) cs

/--
`re.sub(r'(A)\s+(B)', r'\1\2', text)` for single-character classes `A`,
`B` disjoint from whitespace: when the scan sits on an `A` character
followed by a whitespace run and then a `B` character, the whole match is
consumed (the replacement re-emits both group characters) and scanning
resumes after the `B` character; otherwise the scan advances one
character.
-/
def mergeCC (pa pb : Char → Bool) : Nat → List Char → List Char
  | 0, l => l
  | _ + 1, [] => []
  | fuel + 1, c :: cs =>
    if pa c && headSat isPySpace cs then
      match cs.dropWhile isPySpace with
      | b :: rest2 =>
        if pb b then c :: b :: mergeCC pa pb fuel rest2
        else c :: mergeCC pa pb fuel cs
      | [] => c :: mergeCC pa pb fuel cs
    else c :: mergeCC pa pb fuel cs

/-- `mergeCC` with its sufficient fuel. -/
def mergeCCP (pa pb : Char → Bool) (l : List Char) : List Char :=
  mergeCC pa pb (l.length + 1) l

/--
`re.sub(r'([A-Za-z0-9]+)\s+(CJ)', r'\1\2', text)`.  A failed attempt
anywhere inside an alphanumeric run fails for every later start inside the
same run (same whitespace, same following character), so the scanner may
emit the whole run and continue after it.
-/
def mergeRunCJ : Nat → List Char → List Char
  | 0, l => l
  | _ + 1, [] => []
  | fuel + 1, c :: cs =>
    if isAsciiAlnum c then
      let runTail := cs.takeWhile isAsciiAlnum
      let afterRun := cs.dropWhile isAsciiAlnum
      if headSat isPySpace afterRun then
        match afterRun.dropWhile isPySpace with
        | b :: rest2 =>
          if isCJ b then c :: (runTail ++ b :: mergeRunCJ fuel rest2)
          else c :: (runTail ++ mergeRunCJ fuel afterRun)
        | [] => c :: (runTail ++ mergeRunCJ fuel afterRun)
      else c :: (runTail ++ mergeRunCJ fuel afterRun)
    else c :: mergeRunCJ fuel cs

/-- `re.sub(r'(CJ)\s+([A-Za-z0-9]+)', r'\1\2', text)`: the greedy group 2
consumes the maximal alphanumeric run and scanning resumes after it. -/
def mergeCJRun : Nat → List Char → List Char
  | 0, l => l
  | _ + 1, [] => []
  | fuel + 1, c :: cs =>
    if isCJ c && headSat isPySpace cs then
      match cs.dropWhile isPySpace with
      | b :: rest2 =>
        if isAsciiAlnum b then
          c :: (b :: rest2.takeWhile isAsciiAlnum ++ mergeCJRun fuel (rest2.dropWhile isAsciiAlnum))
        else c :: mergeCJRun fuel cs
      | [] => c :: mergeCJRun fuel cs
    else c :: mergeCJRun fuel cs

/--
The alternation `(?:[Ⅰ-ↈ]+|[IVXLCDMivxlcdm]+)` at the head of a list: the
first alternative is tried first; each alternative greedily takes the
maximal run of its own class (giving back characters can never restore
the following word boundary, because the interior of a run is
word-to-word).  Returns the run and the remaining suffix.
-/
def romanRun (l : List Char) : Option (List Char × List Char) :=
  match l with
  | c :: _ =>
    if isUniRoman c then some (l.takeWhile isUniRoman, l.dropWhile isUniRoman)
    else if isAsciiRoman c then some (l.takeWhile isAsciiRoman, l.dropWhile isAsciiRoman)
    else none
  | [] => none

/--
The part of the Roman-numeral pattern from the numeral run on:
`(?:...)\b\s*(?=[A-Za-z0-9一-鿿぀-ヿ])`, with `l` starting at the run.  The
word boundary after the run forces the next character to be a non-word
character (Roman numerals are word characters and the lookahead requires
a following character, so end-of-input fails).  If that character is
whitespace, the greedy `\s*` consumes the whitespace run and the lookahead
inspects the first character after it; otherwise `\s*` is empty and the
lookahead inspects the non-word character itself.  On success, returns
the last consumed character (for subsequent lookbehinds) and the resume
suffix.
-/
def romanTail (l : List Char) : Option (Char × List Char) :=
  match romanRun l with
  | none => none
  | some (run, after) =>
    match after with
    | [] => none
    | k :: after2 =>
      if pyWordChar k then none
      else if isPySpace k then
        match after2.dropWhile isPySpace with
        | m :: rest2 =>
          if isWContext m then some ((k :: after2.takeWhile isPySpace).getLastD k, m :: rest2)
          else none
        | [] => none
      else
        if isWContext k then some (run.getLastD k, k :: after2) else none

/--
The scanner of
`re.sub(r'(?<=[W])\s*\b(?:[Ⅰ-ↈ]+|[IVXLCDMivxlcdm]+)\b\s*(?=[W])', '][', text)`
with `W = A-Za-z0-9一-鿿぀-ヿ`.  A match needs a preceding character in `W`
(so no match starts at position 0).  If `\s*` is non-empty its last
character is whitespace and the first word boundary holds automatically;
if it is empty the boundary forces the preceding character to be one of
the non-word members of `W`.  `prev` is the original previous character.
-/
def romanGo (prev : Char) : Nat → List Char → List Char
  | 0, l => l
  | _ + 1, [] => []
  | fuel + 1, c :: cs =>
    if isWContext prev then
      if isPySpace c then
        match romanTail ((c :: cs).dropWhile isPySpace) with
        | some (lastC, rest) => ']' :: '[' :: romanGo lastC fuel rest
        | none => c :: romanGo c fuel cs
      else if (isUniRoman c || isAsciiRoman c) && !pyWordChar prev then
        match romanTail (c :: cs) with
        | some (lastC, rest) => ']' :: '[' :: romanGo lastC fuel rest
        | none => c :: romanGo c fuel cs
      else c :: romanGo c fuel cs
    else c :: romanGo c fuel cs

/-- The Roman-numeral-to-`][` pass. -/
def romanPass (l : List Char) : List Char :=
  match l with
  | [] => []
  | c :: cs => c :: romanGo c (cs.length + 1) cs

/-- ASCII space or tab, the class `[ \t]`. -/
def isSpTab (c : Char) : Bool := c == ' ' || c == '\t'

/-- `re.sub(r'[ \t]+', ' ', text)`: every space-or-tab run becomes one
space. -/
def collapseST : Nat → List Char → List Char
  | 0, l => l
  | _ + 1, [] => []
  | fuel + 1, c :: cs =>
    if isSpTab c then ' ' :: collapseST fuel (cs.dropWhile isSpTab)
    else c :: collapseST fuel cs

/-- `re.sub(r'\n\n+', '\n', text)`: every run of at least two newlines
becomes one newline; a lone newline is left alone. -/
def collapseNL : Nat → List Char → List Char
  | 0, l => l
  | _ + 1, [] => []
  | fuel + 1, c :: cs =>
    if c == '\n' && headSat (fun d => d == '\n') cs then
      '\n' :: collapseNL fuel (cs.dropWhile (fun d => d == '\n'))
    else c :: collapseNL fuel cs

/-- Python `str.strip()`. -/
def stripList (l : List Char) : List Char :=
  ((l.dropWhile isPySpace).reverse.dropWhile isPySpace).reverse

/--
`OCRWorker.clean_ocr_text`, the passes in source order: control-character
removal; the three I-to-l repairs; the eleven single-character merge
passes (hiragana, katakana, kanji, the kana cross pairs, kana/kanji,
punctuation, decorative symbols); the two alphanumeric-run merge passes;
the Roman-numeral pass; three iterations of the combined CJK merge; the
space collapse; the newline collapse; the final strip.
-/
def clean_ocr_text (s : String) : String :=
  let l := removeControls s.toList
  let l := fixIa none l
  let l := fixIb none l
  let l := fixIa none l
  let l := mergeCCP isHira isHira l
  let l := mergeCCP isKata isKata l
  let l := mergeCCP isKanji isKanji l
  let l := mergeCCP isHira isKata l
  let l := mergeCCP isKata isHira l
  let l := mergeCCP isKana isKanji l
  let l := mergeCCP isKanji isKana l
  let l := mergeCCP isCJ isJpnPunct l
  let l := mergeCCP isJpnPunct isCJ l
  let l := mergeCCP isCJ isDecor l
  let l := mergeCCP isDecor isCJ l
  let l := mergeRunCJ (l.length + 1) l
  let l := mergeCJRun (l.length + 1) l
  let l := romanPass l
  let l := mergeCCP isCJ isCJ (mergeCCP isCJ isCJ (mergeCCP isCJ isCJ l))
  let l := collapseST (l.length + 1) l
  let l := collapseNL (l.length + 1) l
  String.mk (stripList l)

/--
The text-extraction step after recognition in `OCRWorker.perform_ocr`:
`if result and result.text: text = self.clean_ocr_text(result.text)
else: text = "No text detected"`.  A falsy result object or a `None` text
is modelled as `none`; for `some t` the Python truthiness test on
`result.text` is the non-emptiness of `t`.
-/
def extract_text (result : Option String) : String :=
  match result with
  | some t => if t ≠ "" then clean_ocr_text t else "No text detected"
  | none => "No text detected"

/-!
Bracket normalization (`OCRWindow._normalize_brackets`) and the
`display_result` text transform.
-/

/--
The replacement table of `_normalize_brackets`.  The source applies
`text.replace(k, v)` for each pair in turn; since every key is a single
non-ASCII character, every value a single ASCII character, and no key
occurs among the values, the sequential replaces are one pointwise map.
ASCII braces and quotes are written via their codepoints.
-/
def bracketChar (c : Char) : Char :=
  if c = '（' then '(' else if c = '）' then ')'
  else if c = '﹙' then '(' else if c = '﹚' then ')'
  else if c = '︵' then '(' else if c = '︶' then ')'
  else if c = '❨' then '(' else if c = '❩' then ')'
  else if c = '❪' then '(' else if c = '❫' then ')'
  else if c = '［' then '[' else if c = '］' then ']'
  else if c = '【' then '[' else if c = '】' then ']'
  else if c = '〔' then '[' else if c = '〕' then ']'
  else if c = '｛' then Char.ofNat 123 else if c = '｝' then Char.ofNat 125
  else if c = '〖' then '[' else if c = '〗' then ']'
  else if c = '《' then '<' else if c = '》' then '>'
  else if c = '〈' then '<' else if c = '〉' then '>'
  else if c = '⟨' then '<' else if c = '⟩' then '>'
  else if c = '＜' then '<' else if c = '＞' then '>'
  else if c = '「' then Char.ofNat 34 else if c = '」' then Char.ofNat 34
  else if c = '『' then Char.ofNat 34 else if c = '』' then Char.ofNat 34
  else if c = '“' then Char.ofNat 34 else if c = '”' then Char.ofNat 34
  else if c = '‘' then Char.ofNat 39 else if c = '’' then Char.ofNat 39
  else if c = '，' then ',' else if c = '：' then ':'
  else if c = '；' then ';' else if c = '？' then '?'
  else if c = '！' then '!'
  else if c = '－' then '-' else if c = '—' then '-'
  else if c = '‒' then '-' else if c = '–' then '-'
  else if c = '〜' then '~' else if c = '～' then '~'
  else if c = '／' then '/' else if c = '＼' then '\\'
  else if c = '﹝' then '[' else if c = '﹞' then ']'
  else if c = '﹛' then Char.ofNat 123 else if c = '﹜' then Char.ofNat 125
  else c

/-- The ASCII opening-bracket / whitespace pass, for example
`re.sub(r"\(\s+", "(", text)`: an opening bracket followed by a
whitespace run drops the run; scanning resumes after the run. -/
def dropWsAfterOpen (b : Char) : Nat → List Char → List Char
  | 0, l => l
  | _ + 1, [] => []
  | fuel + 1, c :: cs =>
    if c == b && headSat isPySpace cs then
      b :: dropWsAfterOpen b fuel (cs.dropWhile isPySpace)
    else c :: dropWsAfterOpen b fuel cs

/-- The whitespace / ASCII closing-bracket pass, for example
`re.sub(r"\s+\)", ")", text)`: the leftmost match starts at the first
character of a whitespace run whose maximal extent is followed by the
bracket (a shorter extent would put the bracket on a whitespace
character); on failure the scan advances one character. -/
def dropWsBeforeClose (b : Char) : Nat → List Char → List Char
  | 0, l => l
  | _ + 1, [] => []
  | fuel + 1, c :: cs =>
    if isPySpace c then
      match cs.dropWhile isPySpace with
      | d :: rest2 =>
        if d == b then b :: dropWsBeforeClose b fuel rest2
        else c :: dropWsBeforeClose b fuel cs
      | [] => c :: dropWsBeforeClose b fuel cs
    else c :: dropWsBeforeClose b fuel cs

/-- `OCRWindow._normalize_brackets`: the early return on falsy text, the
replacement table, then the eight whitespace-stripping passes (inside
openings `( [ { <`, then before closings `) ] } >`). -/
def normalize_brackets (s : String) : String :=
  if s = "" then s
  else
    let l := s.toList.map bracketChar
    let l := dropWsAfterOpen '(' (l.length + 1) l
    let l := dropWsAfterOpen '[' (l.length + 1) l
    let l := dropWsAfterOpen (Char.ofNat 123) (l.length + 1) l
    let l := dropWsAfterOpen '<' (l.length + 1) l
    let l := dropWsBeforeClose ')' (l.length + 1) l
    let l := dropWsBeforeClose ']' (l.length + 1) l
    let l := dropWsBeforeClose (Char.ofNat 125) (l.length + 1) l
    let l := dropWsBeforeClose '>' (l.length + 1) l
    String.mk l

/--
The text transform of `OCRWindow.display_result`: if `remove_newlines`
then `text.replace('\n', '')`, then if `force_brackets` then
`_normalize_brackets`.
-/
def display_transform (removeNewlines forceBrackets : Bool) (text : String) : String :=
  let t := if removeNewlines then String.mk (text.toList.filter (fun c => c ≠ '\n')) else text
  if forceBrackets then normalize_brackets t else t

/--
The end-to-end text normalization a recognized raw string undergoes (the
spec's `normalize`): `clean_ocr_text` in the worker followed by the
`display_result` transform.
-/
def normalize (stripNewlines forceBrackets : Bool) (s : String) : String :=
  display_transform stripNewlines forceBrackets (clean_ocr_text s)

/-!
Theorems.
-/

set_option maxRecDepth 8192 in
/-- Helper: the no-language-pack message decomposes around its first
remediation command. -/
theorem remediation_decomposition :
    no_language_pack_message =
      ("Error: No OCR language pack installed.\n\n" ++
       "Please install a language pack by running PowerShell as Administrator:\n") ++
      remediation_tw ++ ("\nor\n" ++ remediation_cn) := by decide

/-- Helper: when the proposed rectangle fails the minimum-size check,
`resize_selection` returns the previous rectangle unchanged. -/
theorem resize_selection_reject (e : Edge) (p : Pt) (r : Rect)
    (h : ¬(20 ≤ (propose_resize e p r).w ∧ 20 ≤ (propose_resize e p r).h)) :
    resize_selection e p r = r := by
  simp only [resize_selection, if_neg h]

/-- Helper: one engine-driven mutation preserves the minimum-size
invariant. -/
theorem applyMutation_sizeInv (r : Rect) (m : Mutation) (h : sizeInv r) :
    sizeInv (applyMutation r m) := by
  rcases m with ⟨sw, sh⟩ | ⟨dx, dy⟩ | ⟨e, p⟩
  · refine ⟨le_max_left _ _, le_max_left _ _⟩
  · exact h
  · simp only [applyMutation, resize_selection]
    split
    · next hcond => exact hcond
    · exact h

/--
C1: the spec says a resize shrinking one dimension below 20px keeps the
previous value only for that dimension while the unaffected dimension
still updates.  The code instead discards the whole proposed rectangle:
from the 100x100 rectangle at the origin, dragging the bottom-right
handle to (50, 10) proposes width 51 (acceptable) and height 11 (below
the minimum), and the result keeps the old width 100 rather than the
pointer-implied 51 — the rectangle predicted by the claim, (0,0,51,100),
is not produced.
-/
theorem c1_counterexample :
    propose_resize Edge.br ⟨50, 10⟩ ⟨0, 0, 100, 100⟩ = ⟨0, 0, 51, 11⟩ ∧
    (20 ≤ (51 : Int) ∧ (11 : Int) < 20) ∧
    resize_selection Edge.br ⟨50, 10⟩ ⟨0, 0, 100, 100⟩ = ⟨0, 0, 100, 100⟩ ∧
    resize_selection Edge.br ⟨50, 10⟩ ⟨0, 0, 100, 100⟩ ≠ ⟨0, 0, 51, 100⟩ := by
  refine ⟨by decide, by decide, by decide, by decide⟩

/--
C1 (amended): whenever the pointer-implied rectangle would have width or
height below 20px, `resize_selection` keeps the previous rectangle in
both dimensions; the unaffected dimension is not updated either.
-/
theorem c1_resize_rejects_whole_rectangle (e : Edge) (p : Pt) (r : Rect)
    (h : (propose_resize e p r).w < 20 ∨ (propose_resize e p r).h < 20) :
    resize_selection e p r = r := by
  refine resize_selection_reject e p r ?_
  rcases h with h | h <;> intro hc <;> rcases hc with ⟨h1, h2⟩ <;> omega

/-- C1 witness: the amended theorem applied at the counterexample
input. -/
theorem c1_resize_rejects_whole_rectangle_witness :
    ((propose_resize Edge.br ⟨50, 10⟩ ⟨0, 0, 100, 100⟩).h < 20) ∧
    resize_selection Edge.br ⟨50, 10⟩ ⟨0, 0, 100, 100⟩ = ⟨0, 0, 100, 100⟩ :=
  ⟨by decide, c1_resize_rejects_whole_rectangle Edge.br ⟨50, 10⟩ ⟨0, 0, 100, 100⟩ (Or.inr (by decide))⟩

/--
C2: starting from a rectangle with width and height at least 20, every
sequence of engine-driven mutations (initial clamping, drag translation,
resize) preserves width >= 20 and height >= 20; moreover a resize whose
proposed rectangle would violate the invariant leaves the prior
rectangle in place.
-/
theorem c2_size_invariant (r : Rect) (ms : List Mutation) (h : sizeInv r) :
    sizeInv (runMutations r ms) ∧
    ∀ (e : Edge) (p : Pt) (r' : Rect), ¬ sizeInv (propose_resize e p r') →
      resize_selection e p r' = r' := by
  constructor
  · induction ms generalizing r with
    | nil => exact h
    | cons m rest ih => exact ih (applyMutation r m) (applyMutation_sizeInv r m h)
  · intro e p r' hv
    exact resize_selection_reject e p r' hv

/-- C2 witness: the invariant holds after a concrete mutation sequence
(a drag, a rejected resize, a clamp against a 1920x1080 screen) from the
100x100 rectangle at the origin. -/
theorem c2_size_invariant_witness :
    sizeInv (⟨0, 0, 100, 100⟩ : Rect) ∧
    sizeInv (runMutations ⟨0, 0, 100, 100⟩
      [.drag 5 7, .resize .br ⟨30, 4⟩, .resize .tl ⟨-40, -40⟩, .initClamp 1920 1080]) :=
  ⟨⟨by decide, by decide⟩,
    (c2_size_invariant ⟨0, 0, 100, 100⟩
      [.drag 5 7, .resize .br ⟨30, 4⟩, .resize .tl ⟨-40, -40⟩, .initClamp 1920 1080]
      ⟨by decide, by decide⟩).1⟩

/--
C3: the spec says a Japanese preference with nothing but English
supported fails with a language error.  The code instead lists 'en' as
the last fallback candidate for the 'jpn+eng' preference, so when the
host supports only English (every other candidate — 'ja', 'zh-Hans',
'zh-Hant' — unsupported), recognition proceeds in English and no error
is emitted.
-/
theorem c3_counterexample :
    ((fun l => l == "en") : String → Bool) "ja" = false ∧
    ((fun l => l == "en") : String → Bool) "zh-Hans" = false ∧
    ((fun l => l == "en") : String → Bool) "zh-Hant" = false ∧
    ((fun l => l == "en") : String → Bool) "en" = true ∧
    languages_to_try "jpn+eng" = ["ja", "zh-Hans", "zh-Hant", "en"] ∧
    language_stage "jpn+eng" (fun l => l == "en") = .recognizeWith "en" := by
  refine ⟨rfl, rfl, rfl, rfl, by decide, by decide⟩

/--
C3 (amended): only when the external engine reports every candidate
language for the 'jpn+eng' preference unsupported — including English —
does `perform_ocr` fail with the no-language-pack error, whose message
carries an install remediation command; if English is supported it is
selected as the final fallback and recognition proceeds.
-/
theorem c3_error_only_when_all_unsupported (supported : String → Bool)
    (h : ∀ l ∈ languages_to_try "jpn+eng", supported l = false) :
    language_stage "jpn+eng" supported = .noLanguagePack no_language_pack_message ∧
    (∃ a b, no_language_pack_message = a ++ remediation_tw ++ b) := by
  constructor
  · have hn : (languages_to_try "jpn+eng").find? supported = none := by
      rw [List.find?_eq_none]
      intro x hx
      simp [h x hx]
    simp [language_stage, available_lang, hn]
  · exact ⟨"Error: No OCR language pack installed.\n\n" ++
      "Please install a language pack by running PowerShell as Administrator:\n",
      "\nor\n" ++ remediation_cn, remediation_decomposition⟩

/-- C3 witness: the amended theorem applied to the host that supports no
language at all. -/
theorem c3_error_only_when_all_unsupported_witness :
    language_stage "jpn+eng" (fun _ => false) = .noLanguagePack no_language_pack_message ∧
    (∃ a b, no_language_pack_message = a ++ remediation_tw ++ b) :=
  c3_error_only_when_all_unsupported (fun _ => false) (fun _ _ => rfl)

/--
C4: the spec says an empty or whitespace-only recognition result is
mapped to the "No text detected" sentinel.  A whitespace-only text is
truthy in Python, so it takes the cleaning branch of `perform_ocr` and is
stripped down to the empty string — the emitted text is "" and not the
sentinel.
-/
theorem c4_counterexample :
    extract_text (some " ") = "" ∧
    extract_text (some " ") ≠ "No text detected" := by
  refine ⟨by decide, by decide⟩

/--
C4 (amended): only a missing result object or an empty recognition text
yields the literal sentinel "No text detected"; a whitespace-only text is
cleaned instead, which produces the empty string.
-/
theorem c4_sentinel_only_for_empty :
    extract_text none = "No text detected" ∧
    extract_text (some "") = "No text detected" ∧
    extract_text (some " ") = "" ∧
    extract_text (some " \t ") = "" := by
  refine ⟨by decide, by decide, by decide, by decide⟩

/--
C5: hit-testing is the pure function `get_edge_at_point` of the rectangle
and the point, and whenever the point satisfies one of the four
corner-zone tests and one of the four edge-zone tests, the
classification is a corner handle — the corner tests run first, so the
corner always wins.
-/
theorem c5_corner_beats_edge (r : Rect) (p : Pt)
    (hc : cornerZone r p) (he : edgeZone r p) :
    isCornerResult (get_edge_at_point r p) := by
  unfold get_edge_at_point
  unfold cornerZone at hc
  split_ifs with h1 h2 h3 h4
  · exact Or.inl rfl
  · exact Or.inr (Or.inl rfl)
  · exact Or.inr (Or.inr (Or.inl rfl))
  · exact Or.inr (Or.inr (Or.inr rfl))
  all_goals rcases hc with h | h | h | h
  all_goals first
    | exact absurd h h1
    | exact absurd h h2
    | exact absurd h h3
    | exact absurd h h4

/-- C5 witness: on the 100x100 rectangle at the origin the point (5, 5)
lies in the top-left corner zone and in the top edge zone, and the
classification is a corner. -/
theorem c5_corner_beats_edge_witness :
    cornerZone ⟨0, 0, 100, 100⟩ ⟨5, 5⟩ ∧ edgeZone ⟨0, 0, 100, 100⟩ ⟨5, 5⟩ ∧
    isCornerResult (get_edge_at_point ⟨0, 0, 100, 100⟩ ⟨5, 5⟩) :=
  have hc : cornerZone ⟨0, 0, 100, 100⟩ ⟨5, 5⟩ := Or.inl (by refine ⟨by decide, by decide, by decide, by decide⟩)
  have he : edgeZone ⟨0, 0, 100, 100⟩ ⟨5, 5⟩ := Or.inl (by refine ⟨by decide, by decide, by decide⟩)
  ⟨hc, he, c5_corner_beats_edge ⟨0, 0, 100, 100⟩ ⟨5, 5⟩ hc he⟩

/--
C6: the saved rectangle (-50, 10, 300, 200) clamped against a 1920x1080
screen by the initialization clamp of `SelectionWindow.__init__` is
exactly (0, 10, 300, 200).
-/
theorem c6_initial_clamp_scenario :
    initial_clamp 1920 1080 ⟨-50, 10, 300, 200⟩ = ⟨0, 10, 300, 200⟩ := by
  decide

/--
C8: cleaning the raw text "日本 語 テスト" removes the whitespace run
between the adjacent kanji (the kanji-kanji pass) and between the kanji
and the katakana (the kanji-kana pass), producing exactly "日本語テスト".
-/
theorem c8_cjk_space_removal :
    clean_ocr_text "日本 語 テスト" = "日本語テスト" := by
  decide

/--
C9: with force_brackets enabled, `display_result` maps the raw text
"（ 測試 ）" through `_normalize_brackets`: the full-width parentheses
become ASCII ones via the fixed table and the whitespace just inside the
resulting ASCII pair is stripped, giving exactly "(測試)".
-/
theorem c9_bracket_normalization :
    display_transform false true "（ 測試 ）" = "(測試)" ∧
    normalize_brackets "（ 測試 ）" = "(測試)" := by
  refine ⟨by decide, by decide⟩

/--
C10: in a dragging session, `mouseMoveEvent` translates the selection
rectangle by exactly the pointer delta since the previous event
(`event.pos() - self.drag_start`), leaves the width and the height
unchanged, and applies no screen-bounds clamping — the translated origin
is the exact integer sum for every pointer position, including positions
that place the rectangle partly or fully outside any screen.
-/
theorem c10_drag_translates_exactly (s : SelState) (pos : Pt) (h : s.dragging = true) :
    (mouseMoveEvent s pos).rect.x = s.rect.x + (pos.x - s.dragStart.x) ∧
    (mouseMoveEvent s pos).rect.y = s.rect.y + (pos.y - s.dragStart.y) ∧
    (mouseMoveEvent s pos).rect.w = s.rect.w ∧
    (mouseMoveEvent s pos).rect.h = s.rect.h := by
  simp [mouseMoveEvent, h, Rect.translate]

/-- C10 witness: dragging from start point (500, 500) to (-1000, 2000)
moves the rectangle at the origin to x = -1500, far outside a screen,
with its size untouched. -/
theorem c10_drag_translates_exactly_witness :
    ((⟨⟨0, 0, 100, 100⟩, true, false, none, ⟨500, 500⟩⟩ : SelState).dragging = true) ∧
    (mouseMoveEvent ⟨⟨0, 0, 100, 100⟩, true, false, none, ⟨500, 500⟩⟩ ⟨-1000, 2000⟩).rect.x =
      0 + (-1000 - 500) :=
  ⟨rfl, (c10_drag_translates_exactly ⟨⟨0, 0, 100, 100⟩, true, false, none, ⟨500, 500⟩⟩
    ⟨-1000, 2000⟩ rfl).1⟩

end OneOcr
